import Mathlib

/-!
Shallow embedding of the FlowLog-Analyzer core (flowLogProcessor.py):
field sanitization, the 40-entry field catalog, protocol-registry loading,
mapping-rule loading, the per-line flow-log engine, and report generation.
Definitions mirror the Python source; file-system and exception effects are
modelled by explicit source inductives (file present / missing / read error).
-/

/-- Result type of a Python expression that may be an int, a str, or None. -/
inductive PyValue where
  | vnone
  | vint (n : Int)
  | vstr (s : String)
deriving DecidableEq, Repr

/-- Python str() applied to a PyValue: None prints as the string None. -/
def pyStr : PyValue → String
  | .vnone => "None"
  | .vint n => toString n
  | .vstr s => s

/-- Drops leading and trailing whitespace from a character list; the
character-level body of Python str.strip(). -/
def stripChars (cs : List Char) : List Char :=
  ((cs.dropWhile Char.isWhitespace).reverse.dropWhile Char.isWhitespace).reverse

/-- Models Python str.strip(). -/
def pyStrip (s : String) : String := String.mk (stripChars s.data)

/-- Models Python str.lower() on the ASCII range. -/
def pyLower (s : String) : String := String.mk (s.data.map Char.toLower)

/-- Splits a character list at every occurrence of the delimiter, keeping
empty segments; the character-level body of Python str.split(sep) for a
one-character separator. -/
def splitChars (delim : Char) : List Char → List (List Char)
  | [] => [[]]
  | c :: rest =>
    if c = delim then [] :: splitChars delim rest
    else (c :: (splitChars delim rest).headD []) :: (splitChars delim rest).tail

/-- Reads a non-empty all-digit character list as a natural number. -/
def digitsToNat (cs : List Char) : Option Nat :=
  match cs with
  | [] => Option.none
  | _ :: _ =>
    cs.foldl
      (fun acc c =>
        match acc with
        | some n => if c.isDigit then some (n * 10 + (c.toNat - 48)) else Option.none
        | Option.none => Option.none)
      (some 0)

/-- Models Python int(token) on an already-stripped token: an optional sign
followed by one or more ASCII digits; any other shape raises ValueError,
modelled as returning no value. -/
def pyInt? (s : String) : Option Int :=
  match s.data with
  | [] => Option.none
  | c :: rest =>
    if c = '-' then (digitsToNat rest).map (fun n => -(n : Int))
    else if c = '+' then (digitsToNat rest).map (fun n => (n : Int))
    else (digitsToNat (c :: rest)).map (fun n => (n : Int))

/-- Primitive type attached to a catalog field: int or str. -/
inductive FieldType where
  | tInt
  | tStr
deriving DecidableEq, Repr

/-- Embeds FlowLogProcessor._sanitize_value: the sentinel dash becomes None,
a failed int() conversion becomes None, str() never fails. -/
def sanitizeValue (value : String) (dataType : FieldType) : PyValue :=
  if value = "-" then .vnone
  else match dataType with
    | .tInt =>
      match pyInt? value with
      | some n => .vint n
      | Option.none => .vnone
    | .tStr => .vstr value

/-- Embeds FlowLogProcessor.FIELD_MAPPING: the 40-entry catalog mapping each
canonical field name to its position and primitive type. -/
def FIELD_MAPPING : List (String × (Nat × FieldType)) := [
  ("version", (0, .tInt)), ("account-id", (1, .tStr)), ("interface-id", (2, .tStr)),
  ("srcaddr", (3, .tStr)), ("dstaddr", (4, .tStr)), ("srcport", (5, .tInt)),
  ("dstport", (6, .tInt)), ("protocol", (7, .tInt)), ("packets", (8, .tInt)),
  ("bytes", (9, .tInt)), ("start", (10, .tInt)), ("end", (11, .tInt)),
  ("action", (12, .tStr)), ("log-status", (13, .tStr)), ("vpc-id", (14, .tStr)),
  ("subnet-id", (15, .tStr)), ("instance-id", (16, .tStr)), ("tcp-flags", (17, .tInt)),
  ("type", (18, .tStr)), ("pkt-srcaddr", (19, .tStr)), ("pkt-dstaddr", (20, .tStr)),
  ("region", (21, .tStr)), ("az-id", (22, .tStr)), ("sublocation-type", (23, .tStr)),
  ("sublocation-id", (24, .tStr)), ("pkt-src-aws-service", (25, .tStr)),
  ("pkt-dst-aws-service", (26, .tStr)), ("flow-direction", (27, .tStr)),
  ("traffic-path", (28, .tInt)), ("ecs-cluster-arn", (29, .tStr)),
  ("ecs-cluster-name", (30, .tStr)), ("ecs-container-instance-arn", (31, .tStr)),
  ("ecs-container-instance-id", (32, .tStr)), ("ecs-container-id", (33, .tStr)),
  ("ecs-second-container-id", (34, .tStr)), ("ecs-service-name", (35, .tStr)),
  ("ecs-task-definition-arn", (36, .tStr)), ("ecs-task-arn", (37, .tStr)),
  ("ecs-task-id", (38, .tStr)), ("reject-reason", (39, .tStr))
]

/-- Python dict lookup on an insertion-ordered association list. -/
def getAssoc {κ α : Type} [DecidableEq κ] (m : List (κ × α)) (k : κ) : Option α :=
  match m with
  | [] => Option.none
  | (k₁, v) :: rest => if k₁ = k then some v else getAssoc rest k

/-- Python dict assignment: replace the value in place when the key exists,
otherwise append at the end (insertion order preserved). -/
def setAssoc {κ α : Type} [DecidableEq κ] (m : List (κ × α)) (k : κ) (v : α) : List (κ × α) :=
  match m with
  | [] => [(k, v)]
  | (k₁, v₁) :: rest => if k₁ = k then (k₁, v) :: rest else (k₁, v₁) :: setAssoc rest k v

/-- Python defaultdict(int) increment: bump the count at a key, starting at 0. -/
def bumpAssoc {κ : Type} [DecidableEq κ] (m : List (κ × Nat)) (k : κ) : List (κ × Nat) :=
  match m with
  | [] => [(k, 1)]
  | (k₁, v) :: rest => if k₁ = k then (k₁, v + 1) :: rest else (k₁, v) :: bumpAssoc rest k

/-! ## Protocol registry (load_protocol_mappings, _protocol_number_to_name) -/

/-- One row of the registry CSV as seen through csv.DictReader; a field is
None when its column is missing from the file. -/
structure ProtoRow where
  decimal : Option String
  keyword : Option String
deriving DecidableEq, Repr

/-- The built-in fallback table of 8 common protocols from the source. -/
def commonProtocols : List (String × String) :=
  [("1", "icmp"), ("6", "tcp"), ("17", "udp"), ("47", "gre"),
   ("50", "esp"), ("51", "ah"), ("58", "ipv6-icmp"), ("132", "sctp")]

/-- How the registry file presents itself to load_protocol_mappings: no path
configured or file absent, an exception while reading, or a parsed row list. -/
inductive ProtoSource where
  | noFile
  | readError
  | fileRows (rows : List ProtoRow)

/-- Embeds the loop body of load_protocol_mappings: a row with both the
Decimal and Keyword columns present and non-empty after stripping is stored,
any other row is passed over. -/
def addProtoRow (m : List (String × String)) (row : ProtoRow) : List (String × String) :=
  match row.decimal, row.keyword with
  | some d, some k =>
    if pyStrip d ≠ "" ∧ pyLower (pyStrip k) ≠ "" then
      setAssoc m (pyStrip d) (pyLower (pyStrip k))
    else m
  | _, _ => m

/-- Embeds load_protocol_mappings: a readable file populates the mapping from
its rows starting from the empty class-level dict; no file or a read failure
installs the built-in common protocols instead. -/
def loadProtocolMappings : ProtoSource → List (String × String)
  | .noFile => commonProtocols
  | .readError => commonProtocols
  | .fileRows rows => rows.foldl addProtoRow []

/-- Embeds _protocol_number_to_name: registry lookup, with the input returned
unchanged when absent. -/
def protocolNumberToName (registry : List (String × String)) (protocolNumber : String) : String :=
  (getAssoc registry protocolNumber).getD protocolNumber

/-! ## Rule table (load_mapping_rules) -/

/-- One row of the mapping-rules CSV through csv.DictReader with get
defaults: a missing column reads as the empty string. -/
structure RuleRow where
  dstport : String := ""
  protocol : String := ""
  tag : String := ""
deriving DecidableEq, Repr

/-- Validity of a rule row exactly as tested by load_mapping_rules: the port
sanitizes to an int and protocol and tag are non-empty after normalizing. -/
def ruleRowValid (row : RuleRow) : Bool :=
  (match sanitizeValue row.dstport .tInt with
   | .vint _ => true
   | _ => false)
  && pyStrip (pyLower row.protocol) ≠ "" && pyStrip row.tag ≠ ""

/-- Embeds the loop body of load_mapping_rules: a valid row is keyed by the
decimal string of its port and its normalized protocol; an invalid row is
excluded and counted as one warning. -/
def addRuleRow (acc : List ((String × String) × String) × Nat) (row : RuleRow) :
    List ((String × String) × String) × Nat :=
  match sanitizeValue row.dstport .tInt with
  | .vint n =>
    if pyStrip (pyLower row.protocol) ≠ "" ∧ pyStrip row.tag ≠ "" then
      (setAssoc acc.1 (toString n, pyStrip (pyLower row.protocol)) (pyStrip row.tag), acc.2)
    else (acc.1, acc.2 + 1)
  | _ => (acc.1, acc.2 + 1)

/-- Embeds the row loop of load_mapping_rules over the parsed rows, returning
the rule table together with the number of warned-and-excluded rows. -/
def loadRuleRows (rows : List RuleRow) : List ((String × String) × String) × Nat :=
  rows.foldl addRuleRow ([], 0)

/-- How the rules file presents itself: absent, failing the tabular parse, or
a parsed row list. -/
inductive RuleSource where
  | noFile
  | parseError
  | fileRows (rows : List RuleRow)

/-- Embeds load_mapping_rules including its failure behavior: a missing file
or a CSV parse failure re-raises to the caller; otherwise the rows load. -/
def loadMappingRules : RuleSource → Except String (List ((String × String) × String) × Nat)
  | .noFile => .error "Mapping file not found."
  | .parseError => .error "CSV error in mapping rules."
  | .fileRows rows => .ok (loadRuleRows rows)

/-! ## Flow log engine (process_flow_logs) -/

/-- The mutable aggregate counters of FlowLogProcessor. -/
structure AggState where
  tagCounts : List (String × Nat)
  portProtocolCounts : List ((String × String) × Nat)
  untaggedCount : Nat
  processedLines : Nat
  skippedLines : Nat
deriving DecidableEq, Repr

/-- The counters as initialized by the constructor. -/
def initialState : AggState := ⟨[], [], 0, 0, 0⟩

/-- The run configuration the engine reads: delimiter (modelled as one
character; the source default is a single space), optional field-name list,
loaded rule table, loaded protocol registry. -/
structure Config where
  delimiter : Char
  logFieldNames : Option (List String)
  mappingRules : List ((String × String) × String)
  protocolRegistry : List (String × String)

/-- Embeds the inner field loop of named-schema mode: known fields are
sanitized into the log-entry dict; an unknown field name adds one to
skipped_lines and moves to the next field (the continue statement binds to
this inner loop, not to the line loop). Returns the entry and the number of
skips charged. -/
def buildEntry (pairs : List (String × String)) : List (String × PyValue) × Nat :=
  pairs.foldl
    (fun acc fp =>
      match getAssoc FIELD_MAPPING fp.1 with
      | some it => (setAssoc acc.1 fp.1 (sanitizeValue fp.2 it.2), acc.2)
      | Option.none => (acc.1, acc.2 + 1))
    ([], 0)

/-- Embeds the tail of the line loop: when both strings are truthy the line
is counted in port_protocol_counts and in tag_counts or untagged_count,
otherwise it is skipped. An empty tag stored in the rules would be falsy in
Python and counts as untagged. -/
def countStep (cfg : Config) (st : AggState) (dstport protocolName : String) : AggState :=
  if dstport ≠ "" ∧ protocolName ≠ "" then
    let st₁ : AggState :=
      { st with portProtocolCounts := bumpAssoc st.portProtocolCounts (dstport, protocolName) }
    match getAssoc cfg.mappingRules (dstport, protocolName) with
    | some tag =>
      if tag ≠ "" then { st₁ with tagCounts := bumpAssoc st₁.tagCounts tag }
      else { st₁ with untaggedCount := st₁.untaggedCount + 1 }
    | Option.none => { st₁ with untaggedCount := st₁.untaggedCount + 1 }
  else { st with skippedLines := st.skippedLines + 1 }

/-- Embeds default v2 mode: at least 14 tokens are required, the raw tokens
at positions 6 and 7 are the port and the protocol number; shorter lines are
skipped as malformed. -/
def defaultBranch (cfg : Config) (st : AggState) (parts : List String) : AggState :=
  if 14 ≤ parts.length then
    countStep cfg st (parts.getD 6 "")
      (protocolNumberToName cfg.protocolRegistry (parts.getD 7 ""))
  else { st with skippedLines := st.skippedLines + 1 }

/-- Embeds named-schema mode: a token-count mismatch skips the line; then the
field loop builds the entry (charging one skip per unknown field name), and
the line falls through to the counting step with str() of the dict lookups,
so an absent or null port or protocol reads as the truthy string None. -/
def namedBranch (cfg : Config) (st : AggState) (fieldNames parts : List String) : AggState :=
  if parts.length ≠ fieldNames.length then
    { st with skippedLines := st.skippedLines + 1 }
  else
    countStep cfg
      { st with skippedLines := st.skippedLines + (buildEntry (fieldNames.zip parts)).2 }
      (pyStr ((getAssoc (buildEntry (fieldNames.zip parts)).1 "dstport").getD PyValue.vnone))
      (protocolNumberToName cfg.protocolRegistry
        (pyStr ((getAssoc (buildEntry (fieldNames.zip parts)).1 "protocol").getD PyValue.vnone)))

/-- Embeds the mode dispatch: a non-empty field-name list selects named mode
(an empty or absent list is falsy in Python and selects default mode). -/
def processParts (cfg : Config) (st : AggState) (parts : List String) : AggState :=
  match cfg.logFieldNames with
  | some fieldNames =>
    if fieldNames ≠ [] then namedBranch cfg st fieldNames parts
    else defaultBranch cfg st parts
  | Option.none => defaultBranch cfg st parts

/-- Embeds line tokenization: strip the line, split on the delimiter, strip
each token. -/
def splitLine (delimiter : Char) (line : String) : List String :=
  (splitChars delimiter (stripChars line.data)).map (fun cs => String.mk (stripChars cs))

/-- Embeds one iteration of the line loop: processed_lines is incremented
first, unconditionally, then the line is tokenized and dispatched. -/
def processLine (cfg : Config) (st : AggState) (line : String) : AggState :=
  processParts cfg { st with processedLines := st.processedLines + 1 }
    (splitLine cfg.delimiter line)

/-- How the flow-log file presents itself: absent, or a finite line list. -/
inductive FlowSource where
  | noFile
  | fileLines (lines : List String)

/-- Embeds process_flow_logs: a missing file raises to the caller; otherwise
the lines are folded through the line loop from the initial counters. -/
def processFlowLogs (cfg : Config) : FlowSource → Except String AggState
  | .noFile => .error "Flow log file not found."
  | .fileLines lines => .ok (lines.foldl (processLine cfg) initialState)

/-- Total of all tag counts. -/
def tagTotal (st : AggState) : Nat := st.tagCounts.foldl (fun a it => a + it.2) 0

/-- Total of all port/protocol counts. -/
def ppTotal (st : AggState) : Nat := st.portProtocolCounts.foldl (fun a it => a + it.2) 0

/-! ## Report writer (generate_reports) -/

/-- Ordering used by Python sorted() on tag_counts.items(): tuple comparison,
tag first then count. -/
def tagItemLe (a b : String × Nat) : Bool :=
  decide (a.1 < b.1 ∨ (a.1 = b.1 ∧ a.2 ≤ b.2))

/-- Ordering used by Python sorted() on port_protocol_counts.items(): tuple
comparison on ((port, protocol), count). -/
def ppItemLe (a b : (String × String) × Nat) : Bool :=
  decide (a.1.1 < b.1.1 ∨ (a.1.1 = b.1.1 ∧
    (a.1.2 < b.1.2 ∨ (a.1.2 = b.1.2 ∧ a.2 ≤ b.2))))

/-- Serialization of the sorted tag table rows. -/
def tagLines (items : List (String × Nat)) : String :=
  String.join (items.map (fun it => it.1 ++ "," ++ toString it.2 ++ "\n"))

/-- Serialization of the sorted port/protocol table rows. -/
def ppLines (items : List ((String × String) × Nat)) : String :=
  String.join (items.map (fun it => it.1.1 ++ "," ++ it.1.2 ++ "," ++ toString it.2 ++ "\n"))

/-- Embeds generate_reports: the exact byte layout written to the output
file, with both tables sorted by Python sorted(). -/
def generateReports (st : AggState) : String :=
  "Tag Counts:\n" ++ "Tag,Count\n"
  ++ tagLines (st.tagCounts.mergeSort tagItemLe)
  ++ "Untagged," ++ toString st.untaggedCount ++ "\n\n"
  ++ "Port/Protocol Combination Counts:\n" ++ "Port,Protocol,Count\n"
  ++ ppLines (st.portProtocolCounts.mergeSort ppItemLe)
  ++ "\nProcessed Lines: " ++ toString st.processedLines ++ "\n"
  ++ "Skipped Lines: " ++ toString st.skippedLines ++ "\n"

/-! ## Concrete run configurations and inputs used by the claims -/

/-- Named-schema run whose single schema field is not in the catalog. -/
def cfgUnknownOne : Config := ⟨' ', some ["foo"], [], loadProtocolMappings ProtoSource.noFile⟩

/-- Named-schema run whose two schema fields are both not in the catalog. -/
def cfgUnknownTwo : Config := ⟨' ', some ["foo", "bar"], [], loadProtocolMappings ProtoSource.noFile⟩

/-- Named-schema run with the two-field schema dstport, protocol. -/
def cfgDstProto : Config :=
  ⟨' ', some ["dstport", "protocol"], [], loadProtocolMappings ProtoSource.noFile⟩

/-- Rule table loaded from the single row (25, tcp, sv_P1). -/
def rulesC4 : List ((String × String) × String) := (loadRuleRows [⟨"25", "tcp", "sv_P1"⟩]).1

/-- Default-mode run with the single rule (25, tcp, sv_P1) and no registry file. -/
def cfgC4 : Config := ⟨' ', Option.none, rulesC4, loadProtocolMappings ProtoSource.noFile⟩

/-- A well-formed 14-token default v2 line with dstport 25 and protocol 6. -/
def line14 : String :=
  "2 123456789012 eni-1 10.0.0.1 10.0.0.2 49153 25 6 10 840 1620140761 1620140821 ACCEPT OK"

/-- Rule table loaded from the single row (443, tcp, sv_P2). -/
def rulesC5 : List ((String × String) × String) := (loadRuleRows [⟨"443", "tcp", "sv_P2"⟩]).1

/-- The 14 field names of the default v2 layout, in catalog order. -/
def v2FieldNames : List String :=
  ["version", "account-id", "interface-id", "srcaddr", "dstaddr", "srcport", "dstport",
   "protocol", "packets", "bytes", "start", "end", "action", "log-status"]

/-- Named-schema run over the full v2 field list, empty rule table. -/
def cfgNamedV2 : Config := ⟨' ', some v2FieldNames, [], loadProtocolMappings ProtoSource.noFile⟩

/-- Default-mode run with an empty rule table and no registry file. -/
def cfgDefault : Config := ⟨' ', Option.none, [], loadProtocolMappings ProtoSource.noFile⟩

/-- Named-schema run over the first 10 v2 field names. -/
def cfgNamed10 : Config :=
  ⟨' ', some (v2FieldNames.take 10), [], loadProtocolMappings ProtoSource.noFile⟩

/-- A 14-token line whose dstport token has a leading zero. -/
def line0443 : String :=
  "2 123456789012 eni-1 10.0.0.1 10.0.0.2 49153 0443 6 10 840 1620140761 1620140821 ACCEPT OK"

/-- A 14-token line whose dstport token is not numeric. -/
def lineAbc : String :=
  "2 123456789012 eni-1 10.0.0.1 10.0.0.2 49153 abc 6 10 840 1620140761 1620140821 ACCEPT OK"

/-- A 10-token line with dstport 25 and protocol 6 at positions 6 and 7. -/
def line10 : String := "2 123456789012 eni-1 10.0.0.1 10.0.0.2 49153 25 6 10 840"

/-! ## Helper lemmas -/

theorem getAssoc_setAssoc {κ α : Type} [DecidableEq κ] (m : List (κ × α)) (k k₂ : κ) (v : α) :
    getAssoc (setAssoc m k v) k₂ = if k = k₂ then some v else getAssoc m k₂ := by
  induction m with
  | nil => simp [setAssoc, getAssoc]
  | cons hd tl ih =>
    obtain ⟨k₁, v₁⟩ := hd
    by_cases h1 : k₁ = k
    · subst h1
      by_cases h2 : k₁ = k₂ <;> simp [setAssoc, getAssoc, h2]
    · by_cases h2 : k₁ = k₂
      · have hne : ¬ k = k₂ := fun hh => h1 (h2.trans hh.symm)
        have hne' : ¬ k₂ = k := fun hh => hne hh.symm
        simp [setAssoc, getAssoc, h1, h2, hne, hne']
      · simp [setAssoc, getAssoc, h1, h2, ih]

theorem getAssoc_loadRuleRows_aux (rows : List RuleRow) :
    ∀ (acc : List ((String × String) × String) × Nat) (port protoName tag : String),
      getAssoc (rows.foldl addRuleRow acc).1 (port, protoName) = some tag →
      getAssoc acc.1 (port, protoName) = some tag ∨
      ∃ row ∈ rows, ∃ n : Int, sanitizeValue row.dstport .tInt = .vint n ∧
        port = toString n ∧ protoName = pyStrip (pyLower row.protocol) ∧ tag = pyStrip row.tag := by
  induction rows with
  | nil =>
    intro acc port protoName tag h
    exact Or.inl h
  | cons row rest ih =>
    intro acc port protoName tag h
    rw [List.foldl_cons] at h
    rcases ih _ _ _ _ h with h1 | h1
    · rcases hs : sanitizeValue row.dstport .tInt with _ | n | s
      · rw [show addRuleRow acc row = (acc.1, acc.2 + 1) by simp [addRuleRow, hs]] at h1
        exact Or.inl h1
      · by_cases hc : pyStrip (pyLower row.protocol) ≠ "" ∧ pyStrip row.tag ≠ ""
        · rw [show addRuleRow acc row =
              (setAssoc acc.1 (toString n, pyStrip (pyLower row.protocol)) (pyStrip row.tag), acc.2) by
            simp [addRuleRow, hs, hc]] at h1
          rw [getAssoc_setAssoc] at h1
          by_cases hk : (toString n, pyStrip (pyLower row.protocol)) = (port, protoName)
          · rw [if_pos hk] at h1
            refine Or.inr ⟨row, List.mem_cons_self _ _, n, hs, ?_, ?_, ?_⟩
            · exact (congrArg Prod.fst hk).symm
            · exact (congrArg Prod.snd hk).symm
            · exact (Option.some_inj.mp h1).symm
          · rw [if_neg hk] at h1
            exact Or.inl h1
        · rw [show addRuleRow acc row = (acc.1, acc.2 + 1) by simp [addRuleRow, hs, hc]] at h1
          exact Or.inl h1
      · rw [show addRuleRow acc row = (acc.1, acc.2 + 1) by simp [addRuleRow, hs]] at h1
        exact Or.inl h1
    · obtain ⟨row₁, hmem, rest₁⟩ := h1
      exact Or.inr ⟨row₁, List.mem_cons_of_mem _ hmem, rest₁⟩

theorem addRuleRow_split (a : List ((String × String) × String)) (m : Nat) (row : RuleRow) :
    addRuleRow (a, m) row =
      ((addRuleRow (a, 0) row).1, if ruleRowValid row then m else m + 1) := by
  rcases hs : sanitizeValue row.dstport .tInt with _ | n | s
  · simp [addRuleRow, ruleRowValid, hs]
  · by_cases hc : pyStrip (pyLower row.protocol) ≠ "" ∧ pyStrip row.tag ≠ ""
    · simp [addRuleRow, ruleRowValid, hs, hc, hc.1, hc.2]
    · rw [not_and_or] at hc
      rcases hc with hc | hc <;> simp at hc <;>
        simp [addRuleRow, ruleRowValid, hs, hc]
  · simp [addRuleRow, ruleRowValid, hs]

theorem addRuleRow_fst_invalid (a : List ((String × String) × String)) (m : Nat) (row : RuleRow)
    (h : ruleRowValid row = false) : (addRuleRow (a, m) row).1 = a := by
  rcases hs : sanitizeValue row.dstport .tInt with _ | n | s
  · simp [addRuleRow, hs]
  · have hc : ¬ (pyStrip (pyLower row.protocol) ≠ "" ∧ pyStrip row.tag ≠ "") := by
      intro hc
      simp [ruleRowValid, hs, hc.1, hc.2] at h
    simp [addRuleRow, hs, hc]
  · simp [addRuleRow, hs]

theorem loadRuleRows_filter_aux (rows : List RuleRow) :
    ∀ (a : List ((String × String) × String)) (m : Nat),
      (rows.foldl addRuleRow (a, m)).1 =
        ((rows.filter (fun r => ruleRowValid r)).foldl addRuleRow (a, 0)).1 ∧
      (rows.foldl addRuleRow (a, m)).2 =
        m + (rows.filter (fun r => !ruleRowValid r)).length := by
  induction rows with
  | nil => intro a m; simp
  | cons row rest ih =>
    intro a m
    rw [List.foldl_cons, addRuleRow_split a m row]
    by_cases hv : ruleRowValid row = true
    · rw [if_pos hv, List.filter_cons_of_pos (by simpa using hv),
        List.filter_cons_of_neg (by simpa using hv)]
      rw [List.foldl_cons, addRuleRow_split a 0 row, if_pos hv]
      exact ih _ m
    · have hv₁ : ruleRowValid row = false := by simpa using hv
      rw [if_neg hv, List.filter_cons_of_neg (by simpa using hv₁),
        List.filter_cons_of_pos (by simpa using hv₁)]
      rw [addRuleRow_fst_invalid a 0 row hv₁]
      have h₁ := ih a (m + 1)
      refine ⟨h₁.1, ?_⟩
      rw [h₁.2, List.length_cons]
      omega

theorem tagItemLe_trans : ∀ a b c, tagItemLe a b → tagItemLe b c → tagItemLe a c := by
  intro a b c hab hbc
  simp only [tagItemLe, decide_eq_true_eq] at hab hbc ⊢
  rcases hab with h | ⟨h, h2⟩ <;> rcases hbc with h' | ⟨h', h2'⟩
  · exact Or.inl (lt_trans h h')
  · exact Or.inl (by rw [← h']; exact h)
  · exact Or.inl (by rw [h]; exact h')
  · exact Or.inr ⟨h.trans h', le_trans h2 h2'⟩

theorem tagItemLe_total : ∀ a b, tagItemLe a b || tagItemLe b a := by
  intro a b
  simp only [tagItemLe, Bool.or_eq_true, decide_eq_true_eq]
  rcases lt_trichotomy a.1 b.1 with h | h | h
  · exact Or.inl (Or.inl h)
  · rcases le_total a.2 b.2 with h2 | h2
    · exact Or.inl (Or.inr ⟨h, h2⟩)
    · exact Or.inr (Or.inr ⟨h.symm, h2⟩)
  · exact Or.inr (Or.inl h)

theorem ppItemLe_trans : ∀ a b c, ppItemLe a b → ppItemLe b c → ppItemLe a c := by
  intro a b c hab hbc
  simp only [ppItemLe, decide_eq_true_eq] at hab hbc ⊢
  rcases hab with h | ⟨h, h' | ⟨h', h2⟩⟩ <;> rcases hbc with g | ⟨g, g' | ⟨g', g2⟩⟩
  · exact Or.inl (lt_trans h g)
  · exact Or.inl (by rw [← g]; exact h)
  · exact Or.inl (by rw [← g]; exact h)
  · exact Or.inl (by rw [h]; exact g)
  · exact Or.inr ⟨h.trans g, Or.inl (lt_trans h' g')⟩
  · exact Or.inr ⟨h.trans g, Or.inl (by rw [← g']; exact h')⟩
  · exact Or.inl (by rw [h]; exact g)
  · exact Or.inr ⟨h.trans g, Or.inl (by rw [h']; exact g')⟩
  · exact Or.inr ⟨h.trans g, Or.inr ⟨h'.trans g', le_trans h2 g2⟩⟩

theorem ppItemLe_total : ∀ a b, ppItemLe a b || ppItemLe b a := by
  intro a b
  simp only [ppItemLe, Bool.or_eq_true, decide_eq_true_eq]
  rcases lt_trichotomy a.1.1 b.1.1 with h | h | h
  · exact Or.inl (Or.inl h)
  · rcases lt_trichotomy a.1.2 b.1.2 with h' | h' | h'
    · exact Or.inl (Or.inr ⟨h, Or.inl h'⟩)
    · rcases le_total a.2 b.2 with h2 | h2
      · exact Or.inl (Or.inr ⟨h, Or.inr ⟨h', h2⟩⟩)
      · exact Or.inr (Or.inr ⟨h.symm, Or.inr ⟨h'.symm, h2⟩⟩)
    · exact Or.inr (Or.inr ⟨h.symm, Or.inl h'⟩)
  · exact Or.inr (Or.inl h)

/-! ## Claim theorems -/

/-- C1: the claimed invariant, processedLines = skippedLines + (tagCounts
total + untaggedCount), fails on the code. Under a named schema whose field
name is unknown, the continue statement exits only the inner field loop, so
the line is charged to skippedLines and still contributes to the count maps:
with schema [foo] and the line x we get processedLines 1, skippedLines 1 and
count total 1, so 1 would have to equal 2. The separate second equation,
tagCounts total + untaggedCount = portProtocolCounts total, does hold at the
same input. -/
theorem C1_invariant_violation :
    ∃ st : AggState,
      processFlowLogs cfgUnknownOne (FlowSource.fileLines ["x"]) = Except.ok st ∧
      st.processedLines ≠ st.skippedLines + (tagTotal st + st.untaggedCount) ∧
      tagTotal st + st.untaggedCount = ppTotal st :=
  ⟨⟨[], [(("None", "None"), 1)], 1, 1, 1⟩, rfl, by decide, by decide⟩

/-- C2: refuted on the code. Under the named schema [foo, bar], both fields
unknown, the two-token line x y increments skippedLines twice, not once, and
the line is still counted: portProtocolCounts gains the key (None, None) and
untaggedCount becomes 1, so counts are partially (in fact fully) applied for
a line that the spec says must be skipped during schema resolution. -/
theorem C2_unknown_field_not_skipped :
    ∃ st : AggState,
      processFlowLogs cfgUnknownTwo (FlowSource.fileLines ["x y"]) = Except.ok st ∧
      st.skippedLines = 2 ∧
      st.portProtocolCounts = [(("None", "None"), 1)] ∧
      st.untaggedCount = 1 ∧ st.processedLines = 1 :=
  ⟨⟨[], [(("None", "None"), 1)], 1, 1, 2⟩, rfl, by decide, by decide, by decide, by decide⟩

/-- C3: refuted on the code. Under the named schema [dstport, protocol], the
line - 6 resolves dstport to a null value, but str() of that null is the
truthy string None, so the line is not skipped: skippedLines stays 0,
portProtocolCounts gains the key (None, tcp) and untaggedCount becomes 1,
where the spec requires skippedLines 1 and untouched count maps. -/
theorem C3_missing_port_counted_not_skipped :
    ∃ st : AggState,
      processFlowLogs cfgDstProto (FlowSource.fileLines ["- 6"]) = Except.ok st ∧
      st.skippedLines = 0 ∧
      st.portProtocolCounts = [(("None", "tcp"), 1)] ∧
      st.untaggedCount = 1 :=
  ⟨⟨[], [(("None", "tcp"), 1)], 1, 1, 0⟩, rfl, by decide, by decide, by decide⟩

/-- C4: end-to-end default-mode scenario. With the single rule
(25, tcp, sv_P1) and no schema and no registry file, any log line whose
tokenization has at least 14 tokens with token 6 equal to 25 and token 7
equal to 6 yields tagCounts sv_P1 = 1, portProtocolCounts (25, tcp) = 1,
untaggedCount 0 and skippedLines 0; and any default-mode line with fewer
than 14 tokens is skipped instead. -/
theorem C4_default_mode_scenario (line shortLine : String)
    (h14 : 14 ≤ (splitLine ' ' line).length)
    (h6 : (splitLine ' ' line).getD 6 "" = "25")
    (h7 : (splitLine ' ' line).getD 7 "" = "6")
    (hshort : (splitLine ' ' shortLine).length < 14) :
    processFlowLogs cfgC4 (FlowSource.fileLines [line]) =
      Except.ok ⟨[("sv_P1", 1)], [(("25", "tcp"), 1)], 0, 1, 0⟩ ∧
    processFlowLogs cfgC4 (FlowSource.fileLines [shortLine]) =
      Except.ok ⟨[], [], 0, 1, 1⟩ := by
  constructor
  · have hline : processLine cfgC4 initialState line =
        ⟨[("sv_P1", 1)], [(("25", "tcp"), 1)], 0, 1, 0⟩ := by
      show defaultBranch cfgC4 ⟨[], [], 0, 0 + 1, 0⟩ (splitLine ' ' line) = _
      unfold defaultBranch
      rw [if_pos h14, h6, h7]
      rfl
    show Except.ok ([line].foldl (processLine cfgC4) initialState) = _
    rw [List.foldl_cons, List.foldl_nil, hline]
  · have hno : ¬ 14 ≤ (splitLine ' ' shortLine).length := by omega
    have hline : processLine cfgC4 initialState shortLine = ⟨[], [], 0, 1, 1⟩ := by
      show defaultBranch cfgC4 ⟨[], [], 0, 0 + 1, 0⟩ (splitLine ' ' shortLine) = _
      unfold defaultBranch
      rw [if_neg hno]
    show Except.ok ([shortLine].foldl (processLine cfgC4) initialState) = _
    rw [List.foldl_cons, List.foldl_nil, hline]

/-- Witness for C4 at the concrete 14-token line line14 and the short line
1 2 3. -/
theorem C4_default_mode_scenario_witness :
    processFlowLogs cfgC4 (FlowSource.fileLines [line14]) =
      Except.ok ⟨[("sv_P1", 1)], [(("25", "tcp"), 1)], 0, 1, 0⟩ ∧
    processFlowLogs cfgC4 (FlowSource.fileLines ["1 2 3"]) =
      Except.ok ⟨[], [], 0, 1, 1⟩ :=
  C4_default_mode_scenario line14 "1 2 3" (by decide) (by decide) (by decide) (by decide)

/-- C5: rule-table round trip. The single rule row (443, tcp, sv_P2) loads
into a table in which the key (443, tcp) returns sv_P2 and the key
(443, udp) returns nothing; and in general every successful lookup in a
loaded table comes from some loaded row, with the key normalized as the
decimal string of the sanitized integer port and the lowercased-and-stripped
protocol, so matching is exact on those normalized keys. -/
theorem C5_rule_roundTrip :
    getAssoc rulesC5 ("443", "tcp") = some "sv_P2" ∧
    getAssoc rulesC5 ("443", "udp") = Option.none ∧
    ∀ (rows : List RuleRow) (port protoName tag : String),
      getAssoc (loadRuleRows rows).1 (port, protoName) = some tag →
      ∃ row ∈ rows, ∃ n : Int, sanitizeValue row.dstport .tInt = .vint n ∧
        port = toString n ∧ protoName = pyStrip (pyLower row.protocol) ∧
        tag = pyStrip row.tag := by
  refine ⟨rfl, rfl, ?_⟩
  intro rows port protoName tag h
  rcases getAssoc_loadRuleRows_aux rows ([], 0) port protoName tag h with h1 | h1
  · simp [getAssoc] at h1
  · exact h1

/-- Witness for C5: the general normalization statement applied to the
concrete one-row table behind rulesC5. -/
theorem C5_rule_roundTrip_witness :
    ∃ row ∈ [(⟨"443", "tcp", "sv_P2"⟩ : RuleRow)], ∃ n : Int,
      sanitizeValue row.dstport .tInt = .vint n ∧ "443" = toString n ∧
      "tcp" = pyStrip (pyLower row.protocol) ∧ "sv_P2" = pyStrip row.tag :=
  C5_rule_roundTrip.2.2 [⟨"443", "tcp", "sv_P2"⟩] "443" "tcp" "sv_P2" (by decide)

/-- C6: protocol resolution. With no registry file the built-in fallback
resolves 6 to tcp; and for any loaded registry, a protocol number with no
registry entry resolves to the input string itself unchanged. -/
theorem C6_protocol_resolution :
    protocolNumberToName (loadProtocolMappings ProtoSource.noFile) "6" = "tcp" ∧
    ∀ (registry : List (String × String)) (n : String),
      getAssoc registry n = Option.none → protocolNumberToName registry n = n := by
  refine ⟨rfl, ?_⟩
  intro registry n h
  simp [protocolNumberToName, h]

/-- Witness for C6: the number 253 is absent from the fallback registry and
resolves to itself. -/
theorem C6_protocol_resolution_witness :
    protocolNumberToName (loadProtocolMappings ProtoSource.noFile) "253" = "253" :=
  C6_protocol_resolution.2 (loadProtocolMappings ProtoSource.noFile) "253" (by decide)

/-- C7 counterexample: a registry file whose rows lack the Decimal and
Keyword columns loads successfully as an empty mapping, so no fallback to
the built-in 8-entry table happens and 6 no longer resolves to tcp,
contradicting the claim that every such load failure falls back to exactly
the built-in table. -/
theorem C7_registry_counterexample :
    loadProtocolMappings (ProtoSource.fileRows [⟨Option.none, Option.none⟩]) = [] ∧
    loadProtocolMappings (ProtoSource.fileRows [⟨Option.none, Option.none⟩]) ≠ commonProtocols ∧
    protocolNumberToName
      (loadProtocolMappings (ProtoSource.fileRows [⟨Option.none, Option.none⟩])) "6" = "6" ∧
    protocolNumberToName commonProtocols "6" = "tcp" :=
  ⟨rfl, by decide, rfl, rfl⟩

/-- C7 as amended: registry loading is non-fatal and total; the fallback to
exactly the built-in 8-entry table happens when no registry file is supplied
or reading it fails, while a row missing the Decimal or Keyword column is
skipped on its own without aborting the load and without triggering the
fallback. -/
theorem C7_registry_fallback :
    loadProtocolMappings ProtoSource.noFile =
      [("1", "icmp"), ("6", "tcp"), ("17", "udp"), ("47", "gre"),
       ("50", "esp"), ("51", "ah"), ("58", "ipv6-icmp"), ("132", "sctp")] ∧
    loadProtocolMappings ProtoSource.readError = commonProtocols ∧
    ∀ (pre post : List ProtoRow) (row : ProtoRow),
      row.decimal = Option.none ∨ row.keyword = Option.none →
      loadProtocolMappings (ProtoSource.fileRows (pre ++ row :: post)) =
        loadProtocolMappings (ProtoSource.fileRows (pre ++ post)) := by
  refine ⟨rfl, rfl, ?_⟩
  intro pre post row h
  have hrow : ∀ m, addProtoRow m row = m := by
    intro m
    obtain ⟨d, k⟩ := row
    rcases h with h | h
    · simp only at h
      subst h
      rfl
    · simp only at h
      subst h
      cases d <;> rfl
  show (pre ++ row :: post).foldl addProtoRow [] = (pre ++ post).foldl addProtoRow []
  rw [List.foldl_append, List.foldl_append, List.foldl_cons, hrow]

/-- Witness for C7 as amended: a column-missing row in front of a good row
is skipped and the good row still loads. -/
theorem C7_registry_fallback_witness :
    loadProtocolMappings
        (ProtoSource.fileRows [⟨Option.none, some "tcp"⟩, ⟨some "6", some "TCP"⟩]) =
      loadProtocolMappings (ProtoSource.fileRows [⟨some "6", some "TCP"⟩]) :=
  C7_registry_fallback.2.2 [] [⟨some "6", some "TCP"⟩] ⟨Option.none, some "tcp"⟩ (Or.inl rfl)

/-- C8: rule-table loading fails as a whole when the rule file is missing
(the error propagates and no table is produced), while per-row validation is
independently tolerant: the loaded table is exactly the table of the valid
rows (every invalid row is excluded), and each invalid row produces exactly
one warning. -/
theorem C8_rule_load_tolerance :
    loadMappingRules RuleSource.noFile = Except.error "Mapping file not found." ∧
    ∀ rows : List RuleRow,
      (loadRuleRows rows).1 = (loadRuleRows (rows.filter (fun r => ruleRowValid r))).1 ∧
      (loadRuleRows rows).2 = (rows.filter (fun r => !ruleRowValid r)).length := by
  refine ⟨rfl, ?_⟩
  intro rows
  have h := loadRuleRows_filter_aux rows [] 0
  refine ⟨h.1, ?_⟩
  simpa [loadRuleRows] using h.2

/-- C9: the report serializes, in order, the header pair Tag Counts: and
Tag,Count, the tag table sorted ascending, an Untagged row carrying
untaggedCount, a blank separator, the header pair Port/Protocol Combination
Counts: and Port,Protocol,Count, the port/protocol table sorted ascending by
the key tuple, then the processedLines and skippedLines scalars; the emitted
tag rows are a permutation of tagCounts sorted by the tuple order, likewise
the port/protocol rows. -/
theorem C9_report_layout (st : AggState) :
    ∃ (tagRows : List (String × Nat)) (ppRows : List ((String × String) × Nat)),
      tagRows.Perm st.tagCounts ∧
      tagRows.Pairwise (fun a b => tagItemLe a b = true) ∧
      ppRows.Perm st.portProtocolCounts ∧
      ppRows.Pairwise (fun a b => ppItemLe a b = true) ∧
      generateReports st =
        "Tag Counts:\n" ++ "Tag,Count\n" ++ tagLines tagRows
        ++ "Untagged," ++ toString st.untaggedCount ++ "\n\n"
        ++ "Port/Protocol Combination Counts:\n" ++ "Port,Protocol,Count\n" ++ ppLines ppRows
        ++ "\nProcessed Lines: " ++ toString st.processedLines ++ "\n"
        ++ "Skipped Lines: " ++ toString st.skippedLines ++ "\n" := by
  refine ⟨st.tagCounts.mergeSort tagItemLe, st.portProtocolCounts.mergeSort ppItemLe,
    List.mergeSort_perm _ _, ?_, List.mergeSort_perm _ _, ?_, rfl⟩
  · exact List.sorted_mergeSort tagItemLe_trans tagItemLe_total _
  · exact List.sorted_mergeSort ppItemLe_trans ppItemLe_total _

/-- C10: destination-port keys are normalized inconsistently between modes.
The same 14-token line whose dstport token is 0443 is counted under the key
443 in named-schema mode (int-parse then restringify) but under the raw key
0443 in default mode; a non-numeric dstport token still counts as a record
in default mode; and the same 10-token line is counted under a 10-field
schema but skipped in default mode, so counting versus skipping depends only
on whether a schema is supplied. -/
theorem C10_port_normalization_inconsistency :
    processFlowLogs cfgNamedV2 (FlowSource.fileLines [line0443]) =
      Except.ok ⟨[], [(("443", "tcp"), 1)], 1, 1, 0⟩ ∧
    processFlowLogs cfgDefault (FlowSource.fileLines [line0443]) =
      Except.ok ⟨[], [(("0443", "tcp"), 1)], 1, 1, 0⟩ ∧
    processFlowLogs cfgDefault (FlowSource.fileLines [lineAbc]) =
      Except.ok ⟨[], [(("abc", "tcp"), 1)], 1, 1, 0⟩ ∧
    processFlowLogs cfgNamed10 (FlowSource.fileLines [line10]) =
      Except.ok ⟨[], [(("25", "tcp"), 1)], 1, 1, 0⟩ ∧
    processFlowLogs cfgDefault (FlowSource.fileLines [line10]) =
      Except.ok ⟨[], [], 0, 1, 1⟩ :=
  ⟨rfl, rfl, rfl, rfl, rfl⟩
